import Mathlib

/-!
# lightupguides: the `Card` and `Posts` (TopPosts) components

A shallow embedding of `src/components/Card.js` and
`src/components/TopPosts.js`.  A component is a pure function from its
props to a JSX element tree; the tree is modelled by `Node`, the prop values
by `JSVal`, and the two components by `Card` and `Posts`.
-/

namespace LightUpGuides

/-! ## JavaScript values -/

/-- The primitive values a prop of these components holds: a display string,
or one of the values an absent or switched-off field has. -/
inductive JSVal where
  | undefined
  | null
  | bool (b : Bool)
  | str (s : String)
  deriving DecidableEq, Repr

namespace JSVal

/-- JavaScript truthiness (`ToBoolean`): `undefined`, `null`, `false` and the
empty string are falsy. -/
def truthy : JSVal → Bool
  | undefined => false
  | null => false
  | bool b => b
  | str s => s != ""

/-- String conversion as done by a template literal or by `+` with a string
operand (`ToString`). -/
def toStr : JSVal → String
  | undefined => "undefined"
  | null => "null"
  | bool true => "true"
  | bool false => "false"
  | str s => s

/-- The operator `a && b` on values: `a` when `a` is falsy, otherwise `b`. -/
def and (a b : JSVal) : JSVal :=
  if a.truthy then b else a

/-- The text a value contributes as a child: a string is a text, the other
values are none. -/
def text : JSVal → List String
  | str s => [s]
  | _ => []

end JSVal

/-! ## JSX element trees -/

/-- What an element is an instance of: a host tag, the fragment `<>`, or one
of the components the two files use. -/
inductive ElType where
  | host (tag : String)
  | Fragment
  | Card
  | Link
  | Image
  deriving DecidableEq, Repr

/-- The value of an attribute: a JavaScript value, a number literal
(`width={544}`) or a style object (`style={{ maxWidth: '544px' }}`). -/
inductive PropVal where
  | js (v : JSVal)
  | num (n : Nat)
  | style (fields : List (String × String))
  deriving DecidableEq, Repr

/-- A JSX child: a plain value (`{title}`, a text, the result of a
short-circuited `&&`), an array of children (the result of `.map`), or an
element with its `key`, its attributes and its children. -/
inductive Node where
  | val (v : JSVal)
  | arr (items : List Node)
  | elem (type : ElType) (key : JSVal) (props : List (String × PropVal))
      (children : List Node)

namespace Node

/-- The expression `a && e` whose right operand is an element. -/
def and (a : JSVal) (e : Node) : Node :=
  if a.truthy then e else val a

/-- The expression `c ? a : b`. -/
def cond (c : JSVal) (a b : Node) : Node :=
  if c.truthy then a else b

/-- The direct children of an element (the items of an array). -/
def children : Node → List Node
  | val _ => []
  | arr items => items
  | elem _ _ _ cs => cs

/-- The attributes of an element. -/
def props : Node → List (String × PropVal)
  | elem _ _ ps _ => ps
  | _ => []

/-- The value of the attribute `name`, if the element has it. -/
def prop (n : Node) (name : String) : Option PropVal :=
  (n.props.find? (fun p => p.1 == name)).map (fun p => p.2)

mutual
/-- All elements of type `t` in the tree, in document order. -/
def collect (t : ElType) : Node → List Node
  | val _ => []
  | arr items => collectList t items
  | elem ty k ps cs =>
      (if ty = t then [elem ty k ps cs] else []) ++ collectList t cs
/-- All elements of type `t` in a list of children, in document order. -/
def collectList (t : ElType) : List Node → List Node
  | [] => []
  | n :: ns => collect t n ++ collectList t ns
end

mutual
/-- All string children of the tree, in document order. -/
def texts : Node → List String
  | val v => v.text
  | arr items => textsList items
  | elem _ _ _ cs => textsList cs
/-- All string children of a list of children, in document order. -/
def textsList : List Node → List String
  | [] => []
  | n :: ns => texts n ++ textsList ns
end

/-- The node reached by following child indices from the root. -/
def descend : Node → List Nat → Option Node
  | n, [] => some n
  | n, i :: rest =>
      match n.children.get? i with
      | some c => descend c rest
      | none => none

end Node

/-! ## `src/components/Card.js` -/

/-- The `<Image .../>` element of `Card` (lines 14-20 and 23-29, the same
attributes in both branches). -/
def cardImage (title imgSrc : JSVal) : Node :=
  .elem .Image .undefined
    [("alt", .js title),
     ("src", .js imgSrc),
     ("className", .js (.str "object-cover object-center lg:h-48 md:h-36")),
     ("width", .num 544),
     ("height", .num 306)]
    []

/-- The `<Link href={href} aria-label=...>` wrapper of `Card` (lines 13 and
34) around one child. -/
def cardLink (title href : JSVal) (child : Node) : Node :=
  .elem .Link .undefined
    [("href", .js href),
     ("aria-label", .js (.str ("Link to " ++ title.toStr)))]
    [child]

/-- The component `Card = ({ title, description, imgSrc, href }) => (...)`. -/
def Card (title description imgSrc href : JSVal) : Node :=
  .elem (.host "div") .undefined
    [("className", .js (.str "p-4 md:w-1/3 md")),
     ("style", .style [("maxWidth", "544px")])]
    [.elem (.host "div") .undefined
      [("className", .js (.str ((imgSrc.and (.str "h-full")).toStr ++
          "  overflow-hidden border-2 border-gray-200 rounded-md border-opacity-60 dark:border-gray-700")))]
      [Node.and imgSrc
         (Node.cond href
           (cardLink title href (cardImage title imgSrc))
           (cardImage title imgSrc)),
       .elem (.host "div") .undefined
         [("className", .js (.str "p-6"))]
         [.elem (.host "h2") .undefined
            [("className", .js (.str "mb-3 text-2xl font-bold leading-8 tracking-tight"))]
            [Node.cond href (cardLink title href (.val title)) (.val title)],
          .elem (.host "p") .undefined
            [("className", .js (.str "mb-3 prose text-gray-500 max-w-none dark:text-gray-400"))]
            [.val description]]]]

/-! ## `src/components/TopPosts.js` -/

/-- A post summary record, the fields `Posts` destructures plus `isTop`.
`image` and `isTop` hold any value, `undefined` when the record lacks them:
`image` is handed on as it is and `isTop` is only tested for truthiness. -/
structure FrontMatter where
  slug : String
  date : String
  title : String
  summary : String
  tags : List String
  image : JSVal
  isTop : JSVal
  deriving DecidableEq, Repr

/-- The constant `MAX_DISPLAY` declared on line 5 of `TopPosts.js`; the body
of `Posts` does not refer to it. -/
def MAX_DISPLAY : Nat := 6

/-- The operator `!n` on a number that is a length: `true` exactly for 0. -/
def notLength (n : Nat) : JSVal :=
  .bool (n == 0)

/-- The component `Posts({ posts })`. -/
def Posts (posts : List FrontMatter) : Node :=
  .elem .Fragment .undefined []
    [.elem (.host "div") .undefined
      [("className", .js (.str "divide-y divide-gray-200 dark:divide-gray-700"))]
      [.elem (.host "div") .undefined
         [("className", .js (.str "pt-6 pb-8 space-y-2 md:space-y-5"))]
         [.elem (.host "h1") .undefined
            [("className", .js (.str "text-xl font-bold leading-9 tracking-tight text-gray-900 dark:text-gray-100 sm:text-2xl sm:leading-10 md:text-3xl md:leading-14"))]
            [.val (.str "Latest Posts")]],
       .elem (.host "div") .undefined
         [("className", .js (.str "container py-12"))]
         [.elem (.host "div") .undefined
            [("className", .js (.str "flex flex-wrap -m-4"))]
            [.val ((notLength posts.length).and (.str "No posts found.")),
             .arr ((posts.filter (fun frontMatter => frontMatter.isTop.truthy)).map
               (fun frontMatter =>
                 .elem .Card (.str frontMatter.title)
                   [("title", .js (.str frontMatter.title)),
                    ("description", .js (.str frontMatter.summary)),
                    ("imgSrc", .js frontMatter.image),
                    ("href", .js (.str ("/blog/" ++ frontMatter.slug)))]
                   []))]]]]

/-- The path from the root of `Posts` to the `flex flex-wrap -m-4` element
that holds the placeholder and the cards. -/
def cardContainerPath : List Nat := [0, 1, 0]

/-! ## Sample inputs -/

/-- A flagged record with the given slug and title, no image. -/
def topPost (slug title : String) : FrontMatter :=
  { slug := slug, date := "2021-01-01", title := title, summary := "A guide",
    tags := [], image := .undefined, isTop := .bool true }

/-- Seven flagged records with pairwise distinct titles and slugs. -/
def sevenTopPosts : List FrontMatter :=
  [topPost "a" "Guide A", topPost "b" "Guide B", topPost "c" "Guide C",
   topPost "d" "Guide D", topPost "e" "Guide E", topPost "f" "Guide F",
   topPost "g" "Guide G"]

/-- One record whose `isTop` is absent. -/
def plainPost : FrontMatter :=
  { slug := "z", date := "2021-01-01", title := "Guide Z", summary := "A guide",
    tags := [], image := .str "/static/z.png", isTop := .undefined }

/-- One record whose `isTop` is the string "yes": truthy, and not `true`. -/
def yesPost : FrontMatter :=
  { slug := "y", date := "2021-01-01", title := "Guide Y", summary := "A guide",
    tags := [], image := .undefined, isTop := .str "yes" }

/-! ## Evaluation lemmas for the short-circuit and conditional operators -/

theorem JSVal.truthy_undefined : JSVal.undefined.truthy = false := rfl

theorem JSVal.truthy_str (s : String) (h : s ≠ "") : (JSVal.str s).truthy = true := by
  simp [JSVal.truthy, h]

theorem JSVal.truthy_of_boolean_or_absent (v : JSVal)
    (h : v = .undefined ∨ ∃ b, v = .bool b) :
    v.truthy = decide (v = .bool true) := by
  rcases h with rfl | ⟨b, rfl⟩
  · rfl
  · cases b <;> rfl

theorem Node.and_truthy {a : JSVal} (e : Node) (h : a.truthy = true) :
    Node.and a e = e := by
  simp [Node.and, h]

theorem Node.and_falsy {a : JSVal} (e : Node) (h : a.truthy = false) :
    Node.and a e = .val a := by
  simp [Node.and, h]

theorem Node.cond_truthy {c : JSVal} (a b : Node) (h : c.truthy = true) :
    Node.cond c a b = a := by
  simp [Node.cond, h]

theorem Node.cond_falsy {c : JSVal} (a b : Node) (h : c.truthy = false) :
    Node.cond c a b = b := by
  simp [Node.cond, h]

/-! ## Traversals over a mapped array of childless elements -/

theorem Node.collectList_map_self {α : Type} (t : ElType) (f : α → Node) (xs : List α)
    (h : ∀ x, Node.collect t (f x) = [f x]) :
    Node.collectList t (xs.map f) = xs.map f := by
  induction xs with
  | nil => simp [Node.collectList]
  | cons x xs ih => simp [Node.collectList, h, ih]

theorem Node.textsList_map_nil {α : Type} (f : α → Node) (xs : List α)
    (h : ∀ x, Node.texts (f x) = []) :
    Node.textsList (xs.map f) = [] := by
  induction xs with
  | nil => simp [Node.textsList]
  | cons x xs ih => simp [Node.textsList, h, ih]

/-! ## Card: the image, the links, the heading and the paragraph -/

/-- C4: when `imgSrc` is unset (`undefined`), whatever `title`, `description`
and `href` are, the markup of `Card` contains no `Image` element at all,
neither bare nor inside a link. -/
theorem card_no_image_when_imgSrc_unset (title description href : JSVal) :
    Node.collect .Image (Card title description .undefined href) = [] := by
  cases hh : href.truthy <;>
    simp [Card, cardLink, Node.collect, Node.collectList, Node.cond_truthy,
      Node.cond_falsy, Node.and_falsy, JSVal.truthy_undefined, hh]

/-- C5: when `href` is unset (`undefined`), whatever `title`, `description`
and `imgSrc` are, the `h2` heading of `Card` has the bare `title` value as its
only child, and the whole markup contains no `Link` element. -/
theorem card_plain_title_when_href_unset (title description imgSrc : JSVal) :
    Node.collect (.host "h2") (Card title description imgSrc .undefined) =
        [.elem (.host "h2") .undefined
          [("className", .js (.str "mb-3 text-2xl font-bold leading-8 tracking-tight"))]
          [.val title]] ∧
      Node.collect .Link (Card title description imgSrc .undefined) = [] := by
  cases hi : imgSrc.truthy <;>
    simp [Card, cardImage, Node.collect, Node.collectList, Node.cond_truthy,
      Node.cond_falsy, Node.and_truthy, Node.and_falsy, JSVal.truthy_undefined, hi]

/-- C6: when `imgSrc` and `href` are both non-empty strings, the markup of
`Card` contains exactly two `Link` elements, both with `href` equal to the
given `href`: the first has the `Image` (with `src = imgSrc`, `alt = title`)
as its only child, the second has the `title` value as its only child. -/
theorem card_two_links_when_both_set (title description : JSVal) (imgSrc href : String)
    (hi : imgSrc ≠ "") (hh : href ≠ "") :
    Node.collect .Link (Card title description (.str imgSrc) (.str href)) =
      [.elem .Link .undefined
         [("href", .js (.str href)),
          ("aria-label", .js (.str ("Link to " ++ title.toStr)))]
         [.elem .Image .undefined
            [("alt", .js title),
             ("src", .js (.str imgSrc)),
             ("className", .js (.str "object-cover object-center lg:h-48 md:h-36")),
             ("width", .num 544),
             ("height", .num 306)]
            []],
       .elem .Link .undefined
         [("href", .js (.str href)),
          ("aria-label", .js (.str ("Link to " ++ title.toStr)))]
         [.val title]] := by
  simp [Card, cardImage, cardLink, Node.collect, Node.collectList,
    Node.cond_truthy, Node.and_truthy, JSVal.truthy_str _ hi, JSVal.truthy_str _ hh]

theorem card_two_links_when_both_set_witness :
    Node.collect .Link
        (Card (.str "Guide") (.str "About") (.str "/static/a.png") (.str "/blog/a")) =
      [.elem .Link .undefined
         [("href", .js (.str "/blog/a")),
          ("aria-label", .js (.str ("Link to " ++ (JSVal.str "Guide").toStr)))]
         [.elem .Image .undefined
            [("alt", .js (.str "Guide")),
             ("src", .js (.str "/static/a.png")),
             ("className", .js (.str "object-cover object-center lg:h-48 md:h-36")),
             ("width", .num 544),
             ("height", .num 306)]
            []],
       .elem .Link .undefined
         [("href", .js (.str "/blog/a")),
          ("aria-label", .js (.str ("Link to " ++ (JSVal.str "Guide").toStr)))]
         [.val (.str "Guide")]] :=
  card_two_links_when_both_set (.str "Guide") (.str "About") "/static/a.png" "/blog/a"
    (by decide) (by decide)

/-- C7: when `imgSrc` is set (a truthy value, such as a non-empty string) and
`href` is unset (`undefined`), the markup of `Card` contains exactly one
`Image` element, with `src = imgSrc`, `alt = title`, width 544 and height
306; it is the first direct child of the bordered container, and the markup
contains no `Link` for it to be nested in. -/
theorem card_bare_image_when_href_unset (title description imgSrc : JSVal)
    (hi : imgSrc.truthy = true) :
    Node.collect .Image (Card title description imgSrc .undefined) =
        [.elem .Image .undefined
           [("alt", .js title),
            ("src", .js imgSrc),
            ("className", .js (.str "object-cover object-center lg:h-48 md:h-36")),
            ("width", .num 544),
            ("height", .num 306)]
           []] ∧
      Node.collect .Link (Card title description imgSrc .undefined) = [] ∧
      (Card title description imgSrc .undefined).descend [0, 0] =
        some (.elem .Image .undefined
           [("alt", .js title),
            ("src", .js imgSrc),
            ("className", .js (.str "object-cover object-center lg:h-48 md:h-36")),
            ("width", .num 544),
            ("height", .num 306)]
           []) := by
  simp [Card, cardImage, Node.collect, Node.collectList, Node.descend, Node.children,
    Node.cond_falsy, Node.and_truthy, JSVal.truthy_undefined, hi]

theorem card_bare_image_when_href_unset_witness :
    Node.collect .Image (Card (.str "Guide") (.str "About") (.str "/static/a.png") .undefined) =
        [.elem .Image .undefined
           [("alt", .js (.str "Guide")),
            ("src", .js (.str "/static/a.png")),
            ("className", .js (.str "object-cover object-center lg:h-48 md:h-36")),
            ("width", .num 544),
            ("height", .num 306)]
           []] :=
  (card_bare_image_when_href_unset (.str "Guide") (.str "About") (.str "/static/a.png")
    (by decide)).1

/-- C8: for every `title`, `description`, `imgSrc` and `href`, set or unset,
the markup of `Card` contains exactly one `p` element, and its only child is
the given `description`. -/
theorem card_description_always_rendered (title description imgSrc href : JSVal) :
    Node.collect (.host "p") (Card title description imgSrc href) =
      [.elem (.host "p") .undefined
         [("className", .js (.str "mb-3 prose text-gray-500 max-w-none dark:text-gray-400"))]
         [.val description]] := by
  cases hi : imgSrc.truthy <;> cases hh : href.truthy <;>
    simp [Card, cardImage, cardLink, Node.collect, Node.collectList, Node.cond_truthy,
      Node.cond_falsy, Node.and_truthy, Node.and_falsy, hi, hh]

/-! ## Card: the class of the bordered container -/

/-- C10: the `className` of the inner bordered container of `Card` is the
string conversion of `imgSrc && 'h-full'` followed by the fixed suffix
"  overflow-hidden border-2 ... dark:border-gray-700".  Spelled out per
value of `imgSrc`: "h-full  overflow-hidden ..." for `true` and for a
non-empty string, "undefined  overflow-hidden ..." for `undefined`,
"null  overflow-hidden ..." for `null`, "false  overflow-hidden ..." for
`false` and "  overflow-hidden ..." for the empty string.  It begins with
"h-full" exactly when `imgSrc` is truthy, and for `imgSrc` unset
(`undefined`) it begins with the text "undefined". -/
theorem card_container_className (title description imgSrc href : JSVal) :
    ((Card title description imgSrc href).descend [0]).bind (fun n => n.prop "className") =
        some (.js (.str ((imgSrc.and (.str "h-full")).toStr ++
          "  overflow-hidden border-2 border-gray-200 rounded-md border-opacity-60 dark:border-gray-700"))) ∧
      ("h-full".data <+: ((imgSrc.and (.str "h-full")).toStr ++
          "  overflow-hidden border-2 border-gray-200 rounded-md border-opacity-60 dark:border-gray-700").data ↔
        imgSrc.truthy = true) ∧
      ((Card title description .undefined href).descend [0]).bind (fun n => n.prop "className") =
        some (.js (.str
          "undefined  overflow-hidden border-2 border-gray-200 rounded-md border-opacity-60 dark:border-gray-700")) ∧
      ((Card title description imgSrc href).descend [0]).bind (fun n => n.prop "className") =
        some (.js (.str
          (match imgSrc with
           | .undefined =>
             "undefined  overflow-hidden border-2 border-gray-200 rounded-md border-opacity-60 dark:border-gray-700"
           | .null =>
             "null  overflow-hidden border-2 border-gray-200 rounded-md border-opacity-60 dark:border-gray-700"
           | .bool false =>
             "false  overflow-hidden border-2 border-gray-200 rounded-md border-opacity-60 dark:border-gray-700"
           | .bool true =>
             "h-full  overflow-hidden border-2 border-gray-200 rounded-md border-opacity-60 dark:border-gray-700"
           | .str s =>
             if s = "" then
               "  overflow-hidden border-2 border-gray-200 rounded-md border-opacity-60 dark:border-gray-700"
             else
               "h-full  overflow-hidden border-2 border-gray-200 rounded-md border-opacity-60 dark:border-gray-700"))) ∧
      ("h-full".data <+:
          "h-full  overflow-hidden border-2 border-gray-200 rounded-md border-opacity-60 dark:border-gray-700".data ∧
        "undefined".data <+:
          "undefined  overflow-hidden border-2 border-gray-200 rounded-md border-opacity-60 dark:border-gray-700".data ∧
        ¬ "h-full".data <+:
          "undefined  overflow-hidden border-2 border-gray-200 rounded-md border-opacity-60 dark:border-gray-700".data ∧
        ¬ "h-full".data <+:
          "null  overflow-hidden border-2 border-gray-200 rounded-md border-opacity-60 dark:border-gray-700".data ∧
        ¬ "h-full".data <+:
          "false  overflow-hidden border-2 border-gray-200 rounded-md border-opacity-60 dark:border-gray-700".data ∧
        ¬ "h-full".data <+:
          "  overflow-hidden border-2 border-gray-200 rounded-md border-opacity-60 dark:border-gray-700".data) := by
  refine ⟨?_, ?_, ?_, ?_, ?_⟩
  · simp [Card, Node.descend, Node.children, Node.prop, Node.props]
  · cases hi : imgSrc.truthy
    · cases imgSrc with
      | undefined => simp [JSVal.and, JSVal.truthy, JSVal.toStr]
      | null => simp [JSVal.and, JSVal.truthy, JSVal.toStr]
      | bool b =>
          cases b
          · simp [JSVal.and, JSVal.truthy, JSVal.toStr]
          · simp [JSVal.truthy] at hi
      | str s =>
          have hs : s = "" := by simpa [JSVal.truthy] using hi
          subst hs
          simp [JSVal.and, JSVal.truthy, JSVal.toStr]
    · simp [JSVal.and, hi, JSVal.toStr]
  · simp [Card, Node.descend, Node.children, Node.prop, Node.props, JSVal.and,
      JSVal.truthy, JSVal.toStr]
  · cases imgSrc with
    | undefined =>
        simp [Card, Node.descend, Node.children, Node.prop, Node.props, JSVal.and,
          JSVal.truthy, JSVal.toStr]
    | null =>
        simp [Card, Node.descend, Node.children, Node.prop, Node.props, JSVal.and,
          JSVal.truthy, JSVal.toStr]
    | bool b =>
        cases b <;>
          simp [Card, Node.descend, Node.children, Node.prop, Node.props, JSVal.and,
            JSVal.truthy, JSVal.toStr]
    | str s =>
        by_cases hs : s = ""
        · subst hs
          simp [Card, Node.descend, Node.children, Node.prop, Node.props, JSVal.and,
            JSVal.truthy, JSVal.toStr]
        · simp [Card, Node.descend, Node.children, Node.prop, Node.props, JSVal.and,
            JSVal.truthy, JSVal.toStr, hs]
  · refine ⟨?_, ?_, ?_, ?_, ?_, ?_⟩ <;> decide

/-! ## Posts: the cards and the placeholder -/

/-- C1 as stated fails: a list of one record whose `isTop` is the string
"yes" has no record with `isTop === true`, and `Posts` returns one `Card`. -/
theorem posts_card_for_truthy_isTop_not_true :
    [yesPost].countP (fun r => decide (r.isTop = .bool true)) = 0 ∧
      (Node.collect .Card (Posts [yesPost])).length = 1 ∧
      (Node.collect .Card (Posts [yesPost])).length ≠
        [yesPost].countP (fun r => decide (r.isTop = .bool true)) := by
  have h : (Node.collect .Card (Posts [yesPost])).length = 1 := by
    simp [Posts, yesPost, Node.collect, Node.collectList, JSVal.truthy]
  have h0 : [yesPost].countP (fun r => decide (r.isTop = .bool true)) = 0 := by
    simp [yesPost]
  rw [h, h0]
  exact ⟨rfl, rfl, by decide⟩

/-- C1, amended: the `Card` elements of the markup of `Posts` are, in order,
one per record of `posts` whose `isTop` is truthy (the original relative
order is kept), each with `title = record.title`,
`description = record.summary`, `imgSrc = record.image` and
`href = '/blog/' + record.slug`; so a list in which exactly K records have a
truthy `isTop` yields exactly K cards, and when every `isTop` is a boolean or
absent, K is the number of records with `isTop === true`. -/
theorem posts_cards_are_truthy_flagged_records (posts : List FrontMatter) :
    Node.collect .Card (Posts posts) =
        (posts.filter (fun r => r.isTop.truthy)).map
          (fun r =>
            Node.elem .Card (.str r.title)
              [("title", .js (.str r.title)),
               ("description", .js (.str r.summary)),
               ("imgSrc", .js r.image),
               ("href", .js (.str ("/blog/" ++ r.slug)))]
              []) ∧
      (Node.collect .Card (Posts posts)).length = posts.countP (fun r => r.isTop.truthy) ∧
      ((∀ r ∈ posts, r.isTop = .undefined ∨ ∃ b, r.isTop = .bool b) →
        (Node.collect .Card (Posts posts)).length =
          posts.countP (fun r => decide (r.isTop = .bool true))) := by
  have h : Node.collect .Card (Posts posts) =
      (posts.filter (fun r => r.isTop.truthy)).map
        (fun r =>
          Node.elem .Card (.str r.title)
            [("title", .js (.str r.title)),
             ("description", .js (.str r.summary)),
             ("imgSrc", .js r.image),
             ("href", .js (.str ("/blog/" ++ r.slug)))]
            []) := by
    simp only [Posts, Node.collect, Node.collectList]
    rw [Node.collectList_map_self]
    · simp
    · intro r
      simp [Node.collect, Node.collectList]
  have hlen : (Node.collect .Card (Posts posts)).length =
      posts.countP (fun r => r.isTop.truthy) := by
    rw [h, List.length_map, List.countP_eq_length_filter]
  refine ⟨h, hlen, ?_⟩
  intro hty
  rw [hlen]
  apply List.countP_congr
  intro r hr
  rw [JSVal.truthy_of_boolean_or_absent r.isTop (hty r hr)]

theorem posts_cards_are_truthy_flagged_records_witness :
    (Node.collect .Card (Posts sevenTopPosts)).length =
      sevenTopPosts.countP (fun r => decide (r.isTop = .bool true)) :=
  (posts_cards_are_truthy_flagged_records sevenTopPosts).2.2
    (by simp [sevenTopPosts, topPost])

/-- C2: at seven flagged records `Posts` returns seven `Card` elements, more
than `MAX_DISPLAY` = 6: the declared cap is not applied. -/
theorem posts_exceeds_MAX_DISPLAY :
    (Node.collect .Card (Posts sevenTopPosts)).length = 7 ∧
      MAX_DISPLAY < (Node.collect .Card (Posts sevenTopPosts)).length := by
  have h : (Node.collect .Card (Posts sevenTopPosts)).length = 7 := by
    simp [Posts, sevenTopPosts, topPost, Node.collect, Node.collectList,
      JSVal.truthy]
  rw [h]
  exact ⟨rfl, by decide⟩

/-- C3: for the empty list, the card container of `Posts` has as children
exactly the text "No posts found." and the empty array of cards; the markup
contains no `Card` element and the container's only text is the
placeholder. -/
theorem posts_empty_placeholder :
    (Posts []).descend cardContainerPath =
        some (.elem (.host "div") .undefined
          [("className", .js (.str "flex flex-wrap -m-4"))]
          [.val (.str "No posts found."), .arr []]) ∧
      Node.collect .Card (Posts []) = [] ∧
      ((Posts []).descend cardContainerPath).map Node.texts = some ["No posts found."] := by
  simp [Posts, cardContainerPath, Node.descend, Node.children, Node.collect,
    Node.collectList, Node.texts, Node.textsList, notLength, JSVal.and, JSVal.truthy,
    JSVal.text]

/-- C9: the placeholder "No posts found." is the first child of the card
container, and a text of the markup, exactly when the input list is empty;
for a non-empty list in which no record has `isTop` set (truthy), the container's
children are the value `false` and an empty array: neither the placeholder
nor any `Card`. -/
theorem posts_placeholder_iff_empty (posts : List FrontMatter) :
    ((Posts posts).descend (cardContainerPath ++ [0]) = some (.val (.str "No posts found.")) ↔
        posts = []) ∧
      ("No posts found." ∈ (Posts posts).texts ↔ posts = []) ∧
      (posts ≠ [] → (∀ r ∈ posts, r.isTop.truthy = false) →
        (Posts posts).descend cardContainerPath =
            some (.elem (.host "div") .undefined
              [("className", .js (.str "flex flex-wrap -m-4"))]
              [.val (.bool false), .arr []]) ∧
          Node.collect .Card (Posts posts) = [] ∧
          "No posts found." ∉ (Posts posts).texts) := by
  have hcards : ∀ xs : List FrontMatter, Node.textsList (xs.map (fun frontMatter =>
      Node.elem .Card (.str frontMatter.title)
        [("title", .js (.str frontMatter.title)),
         ("description", .js (.str frontMatter.summary)),
         ("imgSrc", .js frontMatter.image),
         ("href", .js (.str ("/blog/" ++ frontMatter.slug)))]
        [])) = [] :=
    fun xs => Node.textsList_map_nil _ xs (fun _ => by simp [Node.texts, Node.textsList])
  have htexts : (Posts posts).texts =
      "Latest Posts" :: (if posts = [] then ["No posts found."] else []) := by
    cases posts with
    | nil =>
        simp [Posts, Node.texts, Node.textsList, notLength, JSVal.and, JSVal.truthy,
          JSVal.text]
    | cons r rs =>
        simp [Posts, Node.texts, Node.textsList, hcards, notLength, JSVal.and,
          JSVal.truthy, JSVal.text]
  refine ⟨?_, ?_, ?_⟩
  · cases posts with
    | nil =>
        simp [Posts, cardContainerPath, Node.descend, Node.children, notLength,
          JSVal.and, JSVal.truthy]
    | cons r rs =>
        simp [Posts, cardContainerPath, Node.descend, Node.children, notLength,
          JSVal.and, JSVal.truthy]
  · rw [htexts]
    cases posts <;> simp
  · intro hne hno
    have hfilter : posts.filter (fun r => r.isTop.truthy) = [] := by
      rw [List.filter_eq_nil_iff]
      intro r hr
      simp [hno r hr]
    refine ⟨?_, ?_, ?_⟩
    · cases posts with
      | nil => exact absurd rfl hne
      | cons r rs =>
          unfold Posts
          rw [hfilter]
          simp [cardContainerPath, Node.descend, Node.children, notLength,
            JSVal.and, JSVal.truthy]
    · simp [Posts, Node.collect, Node.collectList, hfilter]
    · rw [htexts]
      simp [hne]

theorem posts_placeholder_iff_empty_witness :
    (Posts [plainPost]).descend cardContainerPath =
        some (.elem (.host "div") .undefined
          [("className", .js (.str "flex flex-wrap -m-4"))]
          [.val (.bool false), .arr []]) ∧
      Node.collect .Card (Posts [plainPost]) = [] ∧
      "No posts found." ∉ (Posts [plainPost]).texts :=
  (posts_placeholder_iff_empty [plainPost]).2.2 (by simp) (by simp [plainPost, JSVal.truthy])

end LightUpGuides
